import Mathlib

/-!
Verification of the PyLabware device drivers: a shallow embedding of the
reply-parsing utilities (`PyLabware/parsers.py`) and of the driver logic of
the IMI Norgren Cadent 3 syringe pump, the Kern KDP3000 balance, the
Mettler Toledo MS3002S balance and the Metrohm 781 pH meter
(`PyLabware/devices/*.py`).  Python strings are modelled as `List Char`,
Python exceptions as an explicit error type threaded through `Except`,
and the base-class `send` of the communication core (which is not part of
the embedded sources) is passed in as an explicit parameter wherever a
driver method composes with it.
-/

namespace PyLabware

/-- Python strings are modelled as lists of characters. -/
abbrev PyStr := List Char

/-- The Python exceptions raised by the embedded code: the PyLabware
exception hierarchy (`PLDevice...Error`) plus the builtin `KeyError`,
`IndexError` and `ValueError`. -/
inductive PLError where
  | deviceError (msg : PyStr)
  | deviceCommandError (msg : PyStr)
  | deviceInternalError (msg : PyStr)
  | deviceReplyError (statusByte : Nat)
  | keyError
  | indexError
  | valueError
  deriving DecidableEq, Repr

/-- Whether an `Except` computation returned normally. -/
def exceptIsOk : Except ε α → Bool
  | .ok _ => true
  | .error _ => false

/-- Decidable equality of `Except` results. -/
instance instDecEqExcept [DecidableEq ε] [DecidableEq α] :
    DecidableEq (Except ε α) := fun a b =>
  match a, b with
  | .ok x, .ok y => decidable_of_iff (x = y) (by simp)
  | .ok _, .error _ => .isFalse (fun h => Except.noConfusion h)
  | .error _, .ok _ => .isFalse (fun h => Except.noConfusion h)
  | .error x, .error y => decidable_of_iff (x = y) (by simp)

namespace Parsers

/-- First half of `stripper` (parsers.py lines 55-56): remove `prefix` from
the start of the reply when the reply starts with it. -/
def stripPfx (reply : PyStr) (pfx : Option PyStr) : PyStr :=
  match pfx with
  | some p => if p.isPrefixOf reply then reply.drop p.length else reply
  | none => reply

/-- Second half of `stripper` (parsers.py lines 58-59): remove `suffix` from
the end of the reply when the reply ends with it.  Python evaluates
`reply[:-len(suffix)]`, which for an empty suffix is `reply[:0]`, i.e. the
empty string. -/
def stripSfx (reply : PyStr) (sfx : Option PyStr) : PyStr :=
  match sfx with
  | some t =>
      if t.isSuffixOf reply then
        if t.length = 0 then [] else reply.take (reply.length - t.length)
      else reply
  | none => reply

/-- `stripper` from `PyLabware/parsers.py` (lines 40-61): strip the reply
prefix off the front, then the reply terminator off the end; absence of
either substring leaves the reply unchanged. -/
def stripper (reply : PyStr) (pfx sfx : Option PyStr) : PyStr :=
  stripSfx (stripPfx reply pfx) sfx

/-- Normalisation of one Python slice bound against the sequence length
`n`: negative indices count from the end and clamp at 0, positive indices
clamp at `n`. -/
def pyBound (i : Int) (n : Nat) : Nat :=
  if i < 0 then ((n : Int) + i).toNat else min i.toNat n

/-- Python `xs[start:stop]` with the implicit step 1. -/
def pySlice (xs : List α) (start stop : Int) : List α :=
  (xs.take (pyBound stop xs.length)).drop (pyBound start xs.length)

/-- The argument tuples passed to Python `slice(*args)` in the repository:
either a single stop bound (`slice(stop)`) or a start/stop pair
(`slice(start, stop)`). -/
inductive SliceArgs where
  | stopOnly (stop : Int)
  | startStop (start stop : Int)
  deriving DecidableEq, Repr

/-- `reply[slice(*args)]` for the argument forms of `SliceArgs`. -/
def pySliceArgs (xs : List α) : SliceArgs → List α
  | .stopOnly stop => pySlice xs 0 stop
  | .startStop start stop => pySlice xs start stop

/-- Result of `slicer`: either a list slice, or the single element the
slice collapsed to (after Python `str()` conversion, which is the identity
on the string elements `slicer` is applied to in this repository). -/
inductive SlicerResult where
  | sliced (xs : List PyStr)
  | collapsed (x : PyStr)
  deriving DecidableEq, Repr

/-- `slicer` from `PyLabware/parsers.py` (lines 7-23): take the requested
slice of the reply, and when that slice has length exactly 1 return
`str(reply[0])` instead of the one-element list. -/
def slicer (reply : List PyStr) (args : SliceArgs) : SlicerResult :=
  let r := pySliceArgs reply args
  if r.length = 1 then .collapsed r.headI else .sliced r

/-- Python `str.split(sep)` for a single-character separator (the only
form used in the repository): split on every occurrence of `sep`, keeping
empty fragments. -/
def pySplit (sep : Char) (s : PyStr) : List PyStr :=
  s.splitOn sep

/-- `splitter` from `PyLabware/parsers.py` (lines 63-73): `str.split`
followed by `slicer`. -/
def splitter (reply : PyStr) (sep : Char) (args : SliceArgs) : SlicerResult :=
  slicer (pySplit sep reply) args

/-- Python `str.strip(chars)`: drop the given characters from both ends. -/
def pyStrip (cs : List Char) (s : PyStr) : PyStr :=
  ((s.dropWhile (cs.contains ·)).reverse.dropWhile (cs.contains ·)).reverse

end Parsers

/-- The Python types a command descriptor may name for its argument or
reply (`int`, `float`, `str`). -/
inductive PyType where
  | int
  | float
  | str
  deriving DecidableEq, Repr

/-- A command descriptor (a `LabDeviceCommands` dictionary entry): wire
name, optional argument type, optional reply type.  The optional custom
reply parser and validation data of some descriptors are not needed by the
embedded commands below. -/
structure CommandDescriptor where
  name : PyStr
  argType : Option PyType := none
  replyType : Option PyType := none
  deriving DecidableEq, Repr

/-- A typed reply value produced by the reply decoder. -/
inductive PyVal where
  | vstr (s : PyStr)
  | vint (n : Int)
  | vfloat (q : ℚ)
  deriving DecidableEq, Repr

/-- Modelled from the spec: the command encoding of the device
communication core (`PyLabware.models`/`controllers`, which are not under
`src/`), spec §4.2: `command_prefix + name + (argument_delimiter +
str(value) if value given else "") + command_terminator`. -/
def encodeCommand (cmdPfx name delim : PyStr) (arg : Option PyStr)
    (terminator : PyStr) : PyStr :=
  cmdPfx ++ name ++ (match arg with | some v => delim ++ v | none => []) ++
    terminator

/-- Modelled from the spec: the reply decoding of the communication core
(spec §4.4), for descriptors without a custom reply parser: coerce the
payload to the descriptor's reply type (`str` is the identity, `int` is
Python `int()`, `float` — abstracted as `floatOfStr` — is Python
`float()`, both raising `ValueError` on failure); a missing reply type
yields no value. -/
def decodeReply (floatOfStr : PyStr → Option ℚ) (cmd : CommandDescriptor)
    (payload : PyStr) : Except PLError (Option PyVal) :=
  match cmd.replyType with
  | none => .ok none
  | some .str => .ok (some (.vstr payload))
  | some .int =>
    match (String.mk payload).toInt? with
    | some n => .ok (some (.vint n))
    | none => .error .valueError
  | some .float =>
    match floatOfStr payload with
    | some q => .ok (some (.vfloat q))
    | none => .error .valueError

namespace Cadent3

/-- `Cadent3SyringePumpCommands.ERROR_CODES` (imi_norgren_cadent_3.py lines
70-96): the 5-bit error field values documented in the pump manual. -/
def ERROR_CODES : List (Nat × PyStr) := [
  (0b00000, "no error".toList),
  (0b00001, "syringe failed to initialize".toList),
  (0b00010, "invalid command".toList),
  (0b00011, "invalid argument".toList),
  (0b00100, "communication error".toList),
  (0b00101, "invalid \"R\" command".toList),
  (0b00110, "supply voltage too low".toList),
  (0b00111, "device not initialized".toList),
  (0b01000, "program in progress".toList),
  (0b01001, "syringe overload".toList),
  (0b01010, "valve overload".toList),
  (0b01011, "syringe move not allowed".toList),
  (0b01100, "cannot move against limit".toList),
  (0b01111, "command buffer overflow".toList),
  (0b10000, "use for 3-way valve only".toList),
  (0b10001, "loops nested too deep".toList),
  (0b10010, "program label not found".toList),
  (0b10011, "end of program not found".toList),
  (0b10100, "out of program space".toList),
  (0b10101, "home not set".toList),
  (0b10110, "too many program calls".toList),
  (0b10111, "program not found".toList),
  (0b11000, "valve position error".toList),
  (0b11001, "syringe position corrupted".toList),
  (0b11010, "syringe may go past home".toList)]

/-- `PRG_RUN` command descriptor (line 145): execute command string. -/
def PRG_RUN : CommandDescriptor := { name := "R".toList, replyType := some .str }

/-- `SYR_MOVE_ABS` command descriptor (line 118): move plunger to absolute
position; integer argument, reply type `str`. -/
def SYR_MOVE_ABS : CommandDescriptor :=
  { name := "A".toList, argType := some .int, replyType := some .str }

/-- `GET_START_VEL` command descriptor (line 171). -/
def GET_START_VEL : CommandDescriptor := { name := "?1".toList, replyType := some .int }

/-- `GET_MAX_VEL` command descriptor (line 173). -/
def GET_MAX_VEL : CommandDescriptor := { name := "?2".toList, replyType := some .int }

/-- `GET_STOP_VEL` command descriptor (line 175). -/
def GET_STOP_VEL : CommandDescriptor := { name := "?3".toList, replyType := some .int }

/-- `GET_STATUS` command descriptor (line 165). -/
def GET_STATUS : CommandDescriptor := { name := "Q".toList, replyType := some .str }

/-- `GET_SYR_POS` command descriptor (line 169). -/
def GET_SYR_POS : CommandDescriptor := { name := "?".toList, replyType := some .int }

/-- `SWITCH_ADDRESSES` (lines 28-45): rotary switch setting to wire
address character. -/
def SWITCH_ADDRESSES : List (PyStr × PyStr) := [
  ( "1".toList, "1".toList), ( "2".toList, "2".toList),
  ( "3".toList, "3".toList), ( "4".toList, "4".toList),
  ( "5".toList, "5".toList), ( "6".toList, "6".toList),
  ( "7".toList, "7".toList), ( "8".toList, "8".toList),
  ( "9".toList, "9".toList), ( "A".toList, ":".toList),
  ( "B".toList, ";".toList), ( "C".toList, "<".toList),
  ( "D".toList, "=".toList), ( "E".toList, ">".toList),
  ( "F".toList, "?".toList), ( "all".toList, "_".toList)]

/-- The command prefix set in `__init__` (line 284): `"/" + switch_address`
after the `SWITCH_ADDRESSES` lookup; `none` models the `PLDeviceError`
raised for an invalid switch address. -/
def commandPfx (switchAddress : PyStr) : Option PyStr :=
  (SWITCH_ADDRESSES.lookup switchAddress).map (fun a => '/' :: a)

/-- The default command terminator set in `__init__` (line 286):
`PRG_RUN["name"] + "\r"`, i.e. autorun enabled. -/
def defaultCommandTerminator : PyStr := PRG_RUN.name ++ ['\r']

/-- The reply prefix set in `__init__` (line 287). -/
def replyPfx : PyStr := "/0".toList

/-- The reply terminator set in `__init__` (line 288). -/
def replyTerm : PyStr := "\x03\r\n".toList

/-- The argument delimiter set in `__init__` (line 289): empty. -/
def argsDelimiter : PyStr := []

/-- `Cadent3SyringePump.check_errors` (lines 382-399) on a given
`_last_status` byte: mask the five low bits; zero means no error
(`none`); a documented code raises `PLDeviceInternalError` with the
documented message; an undocumented nonzero code raises
`PLDeviceReplyError` reporting the raw status byte. -/
def check_errors (lastStatus : Nat) : Option PLError :=
  let errorCode := lastStatus &&& 0b11111
  if errorCode = 0 then none
  else
    match ERROR_CODES.lookup errorCode with
    | some msg => some (.deviceInternalError msg)
    | none => some (.deviceReplyError lastStatus)

/-- `Cadent3SyringePump.parse_reply` (lines 367-380): strip the reply
prefix and terminator, record the first character as the status byte, run
`check_errors`, and only if no error was raised hand the remaining payload
to the base-class parser (passed in as `base`, since the communication
core is outside the embedded sources).  An empty stripped reply makes
`reply[0]` raise `IndexError`. -/
def parse_reply (base : PyStr → Except PLError α) (replyBody : PyStr) :
    Except PLError α :=
  let reply := Parsers.stripper replyBody (some replyPfx) (some replyTerm)
  match reply with
  | [] => .error .indexError
  | statusChar :: rest =>
    match check_errors statusChar.toNat with
    | some e => .error e
    | none => base rest

/-- Python substring containment (`needle in haystack`). -/
def strContains (needle : PyStr) : PyStr → Bool
  | [] => needle.isPrefixOf []
  | c :: rest => needle.isPrefixOf (c :: rest) || strContains needle rest

/-- The `autorun` property (lines 293-299): whether the `PRG_RUN` wire
name occurs in the current command terminator (Python `in`). -/
def autorun (commandTerminator : PyStr) : Bool :=
  strContains PRG_RUN.name commandTerminator

/-- The `autorun` setter (lines 301-309): `True` replaces the command
terminator with `PRG_RUN["name"] + "\r"`, `False` with `"\r"`; the
previous terminator string is discarded either way. -/
def setAutorun (_commandTerminator : PyStr) (value : Bool) : PyStr :=
  if value then PRG_RUN.name ++ ['\r'] else ['\r']

/-- `Cadent3SyringePump.get_status` (lines 416-423): disable autorun, send
`GET_STATUS`, re-enable autorun.  There is no try/finally: a raising send
skips the `autorun = True` assignment.  The session state is the command
terminator; `send` is the base-class send, parameterised by it. -/
def get_status (send : PyStr → Except PLError α) (term₀ : PyStr) :
    PyStr × Except PLError α :=
  let term₁ := setAutorun term₀ false
  match send term₁ with
  | .ok v => (setAutorun term₁ true, .ok v)
  | .error e => (term₁, .error e)

/-- `Cadent3SyringePump.get_plunger_position` (lines 541-553): save the
autorun property, disable it, send `GET_SYR_POS`, and restore the saved
value in a `finally` block, so the restore also runs when the send
raises. -/
def get_plunger_position (send : PyStr → Except PLError α) (term₀ : PyStr) :
    PyStr × Except PLError α :=
  let autorunState := autorun term₀
  let term₁ := setAutorun term₀ false
  match send term₁ with
  | .ok v => (setAutorun term₁ autorunState, .ok v)
  | .error e => (setAutorun term₁ autorunState, .error e)

/-- `Cadent3SyringePump.get_velocities` (lines 758-769): disable autorun,
send the three velocity queries, re-enable autorun.  As in `get_status`
there is no try/finally around the sends. -/
def get_velocities (send : CommandDescriptor → PyStr → Except PLError α)
    (term₀ : PyStr) : PyStr × Except PLError (α × α × α) :=
  let term₁ := setAutorun term₀ false
  match send GET_START_VEL term₁ with
  | .error e => (term₁, .error e)
  | .ok a =>
    match send GET_MAX_VEL term₁ with
    | .error e => (term₁, .error e)
    | .ok b =>
      match send GET_STOP_VEL term₁ with
      | .error e => (term₁, .error e)
      | .ok c => (setAutorun term₁ true, .ok (a, b, c))

/-- The class-level `BUS_DEVICES` entry for one serial port together with
the state of the underlying shared connection: `pumps` is the reference
count stored in the registry (`none` = no entry for this port),
`connOpen` the transport state, `closeCount` how many times the transport
has been closed.  Reference counts are Python integers, hence `Int`. -/
structure BusState where
  pumps : Option Int
  connOpen : Bool
  closeCount : Nat
  deriving DecidableEq, Repr

/-- The state before any pump is constructed on the port. -/
def freshBus : BusState :=
  { pumps := none, connOpen := false, closeCount := 0 }

/-- The registry update performed by `__init__` (lines 267-275): reuse an
existing entry and increment its `pumps` count, or store a new entry with
count 1. -/
def busRegister (s : BusState) : BusState :=
  match s.pumps with
  | some n => { s with pumps := some (n + 1) }
  | none => { s with pumps := some 1 }

/-- Constructing `k` pumps on the same port in sequence. -/
def busRegisterN : Nat → BusState → BusState
  | 0, s => s
  | k + 1, s => busRegisterN k (busRegister s)

/-- Modelled from the spec: `super().disconnect()` (the base-class
transport teardown in `PyLabware.controllers`, which is not under `src/`)
closes the transport; spec §4.5: "if it reaches zero, close the transport
and remove the entry". -/
def transportClose (s : BusState) : BusState :=
  { s with connOpen := false, closeCount := s.closeCount + 1 }

/-- `connect` (lines 339-345): open the shared transport unless it is
already open (the base-class open itself is modelled from the spec's
Transport interface, §6). -/
def busConnect (s : BusState) : BusState :=
  if s.connOpen then s else { s with connOpen := true }

/-- `disconnect` (lines 347-365): a closed connection only warns; else
read the current reference count (`KeyError` if the entry is gone),
decrement it, and either store the decremented count or — when it reached
zero — pop the entry and close the transport. -/
def busDisconnect (s : BusState) : Except PLError BusState :=
  if s.connOpen = false then .ok s
  else
    match s.pumps with
    | none => .error .keyError
    | some n =>
      let currentRefs := n - 1
      if currentRefs = 0 then .ok (transportClose { s with pumps := none })
      else .ok { s with pumps := some currentRefs }

/-- Calling `disconnect` once on each of `k` pumps in sequence. -/
def busDisconnectN : Nat → BusState → Except PLError BusState
  | 0, s => .ok s
  | k + 1, s =>
    match busDisconnect s with
    | .ok s' => busDisconnectN k s'
    | .error e => .error e

end Cadent3

namespace KDP3000

/-- `KDP3000BalanceCommands.RESPONSE_CODES` (kern_kdp3000.py lines 24-29). -/
def RESPONSE_CODES : List (PyStr × PyStr) := [
  ( "A".toList, "Acknowledged.".toList),
  ( "B".toList, "More data to follow.".toList),
  ( "S".toList, "Stable.".toList),
  ( "D".toList, "Dynamic.".toList)]

/-- `KDP3000BalanceCommands.ERROR_CODES` (lines 31-37). -/
def ERROR_CODES : List (PyStr × PyStr) := [
  ( "L".toList, "Logical error or invalid parameter.".toList),
  ( "I".toList, "Internal error.".toList),
  ( "ES".toList, "Syntax error.".toList),
  ( "+".toList, "Overweight!".toList),
  ( "-".toList, "Underweight!".toList)]

/-- The reply terminator set in `__init__` (line 101). -/
def replyTerm : PyStr := "\r\n".toList

/-- The message of the `PLDeviceError` raised at line 143:
f"Unknown response code <...> received from the device!". -/
def unknownResponseMsg (code : PyStr) : PyStr :=
  "Unknown response code <".toList ++ code ++
    "> received from the device!".toList

/-- `KDP3000Balance.parse_reply` (lines 122-143): strip the reply
terminator (the driver sets no reply prefix), split on spaces into
command echo, response code and payload words (fewer than two words makes
the tuple unpacking raise `ValueError`); a response code in `ERROR_CODES`
raises the documented `PLDeviceError`/`PLDeviceCommandError`; a code in
`RESPONSE_CODES` re-joins the payload, strips spaces and quotes and hands
it to the base-class parser `base`; any other code raises `PLDeviceError`
with the unknown-response-code message.  (The `.ok none` fall-through
mirrors Python's implicit `return None` for an `ERROR_CODES` key outside
both inner branches; no key of the table reaches it.) -/
def parse_reply (base : PyStr → Except PLError (Option α)) (replyBody : PyStr) :
    Except PLError (Option α) :=
  match Parsers.pySplit ' ' (Parsers.stripper replyBody none (some replyTerm)) with
  | [] => .error .valueError
  | [_] => .error .valueError
  | _cmdEcho :: responseCode :: rest =>
    match ERROR_CODES.lookup responseCode with
    | some msg =>
      if responseCode = "L".toList ∨ responseCode = "I".toList ∨
          responseCode = "+".toList ∨ responseCode = "-".toList then
        .error (.deviceError msg)
      else if responseCode = "ES".toList then
        .error (.deviceCommandError msg)
      else .ok none
    | none =>
      if (RESPONSE_CODES.lookup responseCode).isSome then
        base (Parsers.pyStrip ['"']
          (Parsers.pyStrip [' '] (List.intercalate [' '] rest)))
      else .error (.deviceError (unknownResponseMsg responseCode))

/-- The shape of the value `get_weight` returns: the pair built at line
253, or a bare float as the declared `-> float` annotation would
suggest. -/
inductive WeightResult where
  | pair (w : ℚ) (unit : PyStr)
  | bare (w : ℚ)
  deriving DecidableEq, Repr

/-- Whether a `WeightResult` is the (weight, unit) pair. -/
def WeightResult.isPair : WeightResult → Bool
  | .pair _ _ => true
  | .bare _ => false

/-- `KDP3000Balance.get_weight` (lines 237-253), outside simulation:
`weight, unit = self.send(...)` destructures the parsed reply (a list of
words produced by the descriptor's `str.split` parser; any length other
than two raises `ValueError`), then `return (float(weight), unit)`.
`pyFloat` abstracts Python `float()` parsing (`none` = `ValueError`);
`sendStable`/`sendImmediate` are the base-class send results for
`GET_WEIGHT` and `GET_WEIGHT_IMMEDIATE`. -/
def get_weight (pyFloat : PyStr → Option ℚ)
    (sendStable sendImmediate : Except PLError (List PyStr)) (stable : Bool) :
    Except PLError WeightResult :=
  match (if stable then sendStable else sendImmediate) with
  | .error e => .error e
  | .ok l =>
    match l with
    | [w, u] =>
      match pyFloat w with
      | some q => .ok (.pair q u)
      | none => .error .valueError
    | _ => .error .valueError

end KDP3000

namespace MS3002S

/-- `MS3002SBalanceCommands.MAX_WEIGHT` (mt_ms3002s.py line 21), grams. -/
def MAX_WEIGHT : ℚ := 3200

/-- The commands `set_tare` can send on the wire. -/
inductive Sent where
  | getTare (arg : PyStr)
  | setTare
  deriving DecidableEq, Repr

/-- The message of the `PLDeviceCommandError` raised at line 151:
f"Illegal tare weight ... (min - 0 max - 3200)"; `fmt` abstracts Python
float formatting. -/
def illegalTareMsg (fmt : ℚ → PyStr) (w : ℚ) : PyStr :=
  "Illegal tare weight ".toList ++ fmt w ++ " (min - 0 max - 3200)".toList

/-- `MS3002SBalance.set_tare` (lines 141-154): a specified weight outside
[0, MAX_WEIGHT] raises `PLDeviceCommandError` before anything is sent; a
weight in range sends one `GET_TARE` command with argument f"... g"; no
weight sends one `SET_TARE` command.  The returned list is the sequence
of commands sent. -/
def set_tare (fmt : ℚ → PyStr) (weight : Option ℚ) :
    List Sent × Option PLError :=
  match weight with
  | some w =>
    if w < 0 ∨ w > MAX_WEIGHT then
      ([], some (.deviceCommandError (illegalTareMsg fmt w)))
    else ([.getTare (fmt w ++ " g".toList)], none)
  | none => ([.setTare], none)

end MS3002S

namespace Metrohm

/-- `Metrohm781pHMeterCommands.GLOBAL_STATUSES` (metrohm_781ph.py line
22). -/
def GLOBAL_STATUSES : List (PyStr × PyStr) := [
  ( "$R".toList, "Idle".toList),
  ( "$G".toList, "Running".toList),
  ( "$S".toList, "Stopped".toList)]

/-- `Metrohm781pHMeter.get_status` (lines 100-107): subscript
`GLOBAL_STATUSES` with the first two characters of the reply to the
`GET_STATUS` send (`sendResult`); a Python dict subscript with a missing
key raises `KeyError`. -/
def get_status (sendResult : PyStr) : Except PLError PyStr :=
  match GLOBAL_STATUSES.lookup (sendResult.take 2) with
  | some v => .ok v
  | none => .error .keyError

end Metrohm

/-! ## Helper lemmas -/

theorem stripPfx_append (p r : PyStr) :
    Parsers.stripPfx (p ++ r) (some p) = r := by
  have h : p.isPrefixOf (p ++ r) = true := by
    rw [ List.isPrefixOf_iff_prefix]
    exact List.prefix_append p r
  simp [Parsers.stripPfx, h]

theorem stripSfx_append (s t : PyStr) (ht : t ≠ []) :
    Parsers.stripSfx (s ++ t) (some t) = s := by
  have hsuf : t.isSuffixOf (s ++ t) = true := by
    rw [List.isSuffixOf_iff_suffix]
    exact List.suffix_append s t
  have hlen : t.length ≠ 0 := fun h => ht (List.length_eq_zero.mp h)
  simp only [Parsers.stripSfx, hsuf, if_true, hlen, if_false, ite_false]
  rw [List.length_append, Nat.add_sub_cancel, List.take_left]

theorem busRegisterN_some (k : Nat) (n : Int) (o : Bool) (c : Nat) :
    Cadent3.busRegisterN k { pumps := some n, connOpen := o, closeCount := c } =
      { pumps := some (n + k), connOpen := o, closeCount := c } := by
  induction k generalizing n with
  | zero => simp [Cadent3.busRegisterN]
  | succ k ih =>
    rw [Cadent3.busRegisterN, Cadent3.busRegister]
    simp only [ih]
    have h2 : n + 1 + (k : Int) = n + ((k + 1 : Nat) : Int) := by
      push_cast
      omega
    rw [h2]

theorem busState_after_construct (N : Nat) (hN : 1 ≤ N) :
    Cadent3.busConnect (Cadent3.busRegisterN N Cadent3.freshBus) =
      { pumps := some (N : Int), connOpen := true, closeCount := 0 } := by
  cases N with
  | zero => omega
  | succ m =>
    rw [Cadent3.busRegisterN]
    show Cadent3.busConnect (Cadent3.busRegisterN m
      { pumps := some 1, connOpen := false, closeCount := 0 }) = _
    rw [busRegisterN_some]
    have h : (1 : Int) + m = ((m + 1 : Nat) : Int) := by push_cast; omega
    rw [h]
    rfl

theorem busDisconnectN_partial (k : Nat) (n : Int) (h : (k : Int) < n) :
    Cadent3.busDisconnectN k
        { pumps := some n, connOpen := true, closeCount := 0 } =
      .ok { pumps := some (n - k), connOpen := true, closeCount := 0 } := by
  induction k generalizing n with
  | zero => simp [Cadent3.busDisconnectN]
  | succ k ih =>
    have h1 : n - 1 ≠ 0 := by omega
    rw [Cadent3.busDisconnectN, Cadent3.busDisconnect]
    simp only [h1, if_false, ite_false]
    show Cadent3.busDisconnectN k
      { pumps := some (n - 1), connOpen := true, closeCount := 0 } = _
    rw [ih (n - 1) (by push_cast at h ⊢; omega)]
    have h2 : n - 1 - (k : Int) = n - ((k + 1 : Nat) : Int) := by
      push_cast
      omega
    rw [h2]

theorem busDisconnectN_final (n : Nat) (h : 1 ≤ n) :
    Cadent3.busDisconnectN n
        { pumps := some (n : Int), connOpen := true, closeCount := 0 } =
      .ok { pumps := none, connOpen := false, closeCount := 1 } := by
  induction n with
  | zero => omega
  | succ m ih =>
    rcases Nat.eq_zero_or_pos m with hm | hm
    · subst hm
      rfl
    · have h1 : ((m : Int) + 1) - 1 ≠ 0 := by omega
      rw [Cadent3.busDisconnectN, Cadent3.busDisconnect]
      push_cast
      simp only [h1, if_false, ite_false]
      show Cadent3.busDisconnectN m
        { pumps := some ((m : Int) + 1 - 1), connOpen := true, closeCount := 0 } = _
      rw [show (m : Int) + 1 - 1 = (m : Int) by omega]
      exact ih hm

theorem autorun_setAutorun (t : PyStr) (b : Bool) :
    Cadent3.autorun (Cadent3.setAutorun t b) = b := by
  cases b <;> rfl

/-! ## Claim theorems -/

/-- C1: constructing N ≥ 1 Cadent 3 pumps on the same port yields one
registry entry whose `pumps` reference count is N over one shared
connection; after any k < N of the N `disconnect` calls the connection is
still open, never closed, and the entry holds N - k; the Nth `disconnect`
closes the connection exactly once and removes the entry. -/
theorem cadent_bus_sharing (N : Nat) (hN : 1 ≤ N) :
    Cadent3.busConnect (Cadent3.busRegisterN N Cadent3.freshBus) =
      { pumps := some (N : Int), connOpen := true, closeCount := 0 } ∧
    (∀ k, k < N →
      Cadent3.busDisconnectN k
          (Cadent3.busConnect (Cadent3.busRegisterN N Cadent3.freshBus)) =
        .ok { pumps := some ((N : Int) - k), connOpen := true, closeCount := 0 }) ∧
    Cadent3.busDisconnectN N
        (Cadent3.busConnect (Cadent3.busRegisterN N Cadent3.freshBus)) =
      .ok { pumps := none, connOpen := false, closeCount := 1 } := by
  have hstate := busState_after_construct N hN
  refine ⟨hstate, fun k hk => ?_, ?_⟩
  · rw [hstate]
    exact busDisconnectN_partial k N (by exact_mod_cast hk)
  · rw [hstate]
    exact busDisconnectN_final N hN

theorem cadent_bus_sharing_witness :
    Cadent3.busConnect (Cadent3.busRegisterN 3 Cadent3.freshBus) =
      { pumps := some 3, connOpen := true, closeCount := 0 } ∧
    Cadent3.busDisconnectN 2
        (Cadent3.busConnect (Cadent3.busRegisterN 3 Cadent3.freshBus)) =
      .ok { pumps := some 1, connOpen := true, closeCount := 0 } ∧
    Cadent3.busDisconnectN 3
        (Cadent3.busConnect (Cadent3.busRegisterN 3 Cadent3.freshBus)) =
      .ok { pumps := none, connOpen := false, closeCount := 1 } :=
  ⟨(cadent_bus_sharing 3 (by decide)).1,
   by simpa using (cadent_bus_sharing 3 (by decide)).2.1 2 (by decide),
   (cadent_bus_sharing 3 (by decide)).2.2⟩

/-- C2: `check_errors` behaves three-way on the five low bits of the
status byte: a zero field raises nothing, a nonzero field documented in
`ERROR_CODES` raises `PLDeviceInternalError` with exactly the documented
message, and a nonzero undocumented field raises `PLDeviceReplyError`. -/
theorem cadent_check_errors_trichotomy (status : Nat) :
    (status &&& 0b11111 = 0 → Cadent3.check_errors status = none) ∧
    (∀ msg, status &&& 0b11111 ≠ 0 →
      Cadent3.ERROR_CODES.lookup (status &&& 0b11111) = some msg →
      Cadent3.check_errors status = some (.deviceInternalError msg)) ∧
    (status &&& 0b11111 ≠ 0 →
      Cadent3.ERROR_CODES.lookup (status &&& 0b11111) = none →
      Cadent3.check_errors status = some (.deviceReplyError status)) := by
  refine ⟨fun h => ?_, fun msg h1 h2 => ?_, fun h1 h2 => ?_⟩ <;>
    simp [Cadent3.check_errors, *]

theorem cadent_check_errors_trichotomy_witness :
    Cadent3.check_errors 0b100000 = none ∧
    Cadent3.check_errors 0b01001 =
      some (.deviceInternalError ( "syringe overload".toList)) ∧
    Cadent3.check_errors 0b01101 = some (.deviceReplyError 0b01101) :=
  ⟨(cadent_check_errors_trichotomy 0b100000).1 (by decide),
   (cadent_check_errors_trichotomy 0b01001).2.1
     ( "syringe overload".toList) (by decide) (by decide),
   (cadent_check_errors_trichotomy 0b01101).2.2 (by decide) (by decide)⟩

/-- C5: in the Cadent 3 `parse_reply`, the status byte is checked before
any payload interpretation: whenever the five-bit error field of the
status byte is nonzero, the call raises the error determined by
`check_errors` alone, and the result does not depend on the base-class
payload parser at all (the parser is never reached). -/
theorem cadent_error_preempts_payload (base₁ base₂ : PyStr → Except PLError α)
    (body : PyStr) (c : Char) (rest : PyStr)
    (hstrip : Parsers.stripper body (some Cadent3.replyPfx)
      (some Cadent3.replyTerm) = c :: rest)
    (herr : c.toNat &&& 0b11111 ≠ 0) :
    (∃ e, Cadent3.check_errors c.toNat = some e ∧
      Cadent3.parse_reply base₁ body = .error e) ∧
    Cadent3.parse_reply base₁ body = Cadent3.parse_reply base₂ body := by
  have hsome : ∃ e, Cadent3.check_errors c.toNat = some e := by
    unfold Cadent3.check_errors
    simp only [herr, if_false, ite_false]
    cases Cadent3.ERROR_CODES.lookup (c.toNat &&& 0b11111) <;> simp
  obtain ⟨e, he⟩ := hsome
  refine ⟨⟨e, he, ?_⟩, ?_⟩ <;>
    simp [Cadent3.parse_reply, hstrip, he]

theorem cadent_error_preempts_payload_witness :
    (∃ e, Cadent3.check_errors ('C'.toNat) = some e ∧
      Cadent3.parse_reply (fun _ => (.ok 0 : Except PLError Nat))
        ( "/0C\x03\r\n".toList) = .error e) ∧
    Cadent3.parse_reply (fun _ => (.ok 0 : Except PLError Nat))
        ( "/0C\x03\r\n".toList) =
      Cadent3.parse_reply (fun _ => (.ok 1 : Except PLError Nat))
        ( "/0C\x03\r\n".toList) :=
  cadent_error_preempts_payload (fun _ => .ok 0) (fun _ => .ok 1)
    ( "/0C\x03\r\n".toList) 'C' [] (by decide) (by decide)

/-- C3: frame encode/decode round-trip: for every prefix `p`, every
non-empty terminator `t` and every payload `s`, stripping the frame from
the concatenation `p ++ s ++ t` with `stripper (p ++ s ++ t) p t`
recovers exactly the payload `s`. -/
theorem stripper_frame_roundtrip (p s t : PyStr) (ht : t ≠ []) :
    Parsers.stripper (p ++ s ++ t) (some p) (some t) = s := by
  rw [List.append_assoc, Parsers.stripper, stripPfx_append,
    stripSfx_append s t ht]

theorem stripper_frame_roundtrip_witness :
    Parsers.stripper ( "/0PAYLOAD\x03\r\n".toList) (some ( "/0".toList))
      (some ( "\x03\r\n".toList)) = "PAYLOAD".toList :=
  stripper_frame_roundtrip ( "/0".toList) ( "PAYLOAD".toList)
    ( "\x03\r\n".toList) (by decide)

/-- C4: a reply whose status/response indicator is unknown to the dialect
raises and never returns a value: `KDP3000Balance.parse_reply` raises
`PLDeviceError` with the unknown-response-code message when the code is in
neither `RESPONSE_CODES` nor `ERROR_CODES`, and `Metrohm781pHMeter.get_status`
raises `KeyError` when the reply's two-character status is not in
`GLOBAL_STATUSES`. -/
theorem unknown_indicator_raises (base : PyStr → Except PLError (Option α))
    (body cmdEcho code : PyStr) (rest : List PyStr) (reply₂ : PyStr) :
    (Parsers.pySplit ' '
        (Parsers.stripper body none (some KDP3000.replyTerm)) =
        cmdEcho :: code :: rest →
      KDP3000.ERROR_CODES.lookup code = none →
      KDP3000.RESPONSE_CODES.lookup code = none →
      KDP3000.parse_reply base body =
        .error (.deviceError (KDP3000.unknownResponseMsg code))) ∧
    (Metrohm.GLOBAL_STATUSES.lookup (reply₂.take 2) = none →
      Metrohm.get_status reply₂ = .error .keyError) := by
  constructor
  · intro hsplit h1 h2
    unfold KDP3000.parse_reply
    rw [hsplit]
    simp [h1, h2]
  · intro h
    unfold Metrohm.get_status
    rw [h]

theorem unknown_indicator_raises_witness :
    KDP3000.parse_reply (fun _ => (.ok none : Except PLError (Option PyVal)))
        ( "I4 X 12\r\n".toList) =
      .error (.deviceError (KDP3000.unknownResponseMsg ( "X".toList))) ∧
    Metrohm.get_status ( "$T.Mode.pH".toList) = .error .keyError :=
  ⟨(unknown_indicator_raises (fun _ => .ok none) ( "I4 X 12\r\n".toList)
      ( "I4".toList) ( "X".toList) [ "12".toList] []).1
      (by decide) (by decide) (by decide),
   (unknown_indicator_raises (fun _ => (.ok none : Except PLError (Option PyVal)))
      [] [] [] [] ( "$T.Mode.pH".toList)).2 (by decide)⟩

/-- C6 counterexample: the claim (following the spec's end-to-end example)
asserts the successful `SYR_MOVE_ABS` exchange produces "no typed value"
because the descriptor has no reply type; but `SYR_MOVE_ABS`
(imi_norgren_cadent_3.py line 118) declares reply type `str`, so decoding
the example reply yields the empty-string value, not the absence of a
value. -/
theorem cadent_move_example_counterexample :
    Cadent3.SYR_MOVE_ABS.replyType = some .str ∧
    Cadent3.parse_reply (decodeReply (fun _ => none) Cadent3.SYR_MOVE_ABS)
        ( "/0@\x03\r\n".toList) = .ok (some (.vstr [])) ∧
    Cadent3.parse_reply (decodeReply (fun _ => none) Cadent3.SYR_MOVE_ABS)
        ( "/0@\x03\r\n".toList) ≠ .ok none := by
  refine ⟨rfl, by decide, by decide⟩

/-- C6 (amended): for switch address "1" with autorun enabled, the session
framing is command prefix "/1", command terminator "R\r" and empty
argument delimiter, so encoding `SYR_MOVE_ABS` (wire name "A") with
argument 3000 produces exactly "/1A3000R\r"; the reply "/0@\x03\r\n"
strips to payload "@", whose status byte 0x40 has a zero five-bit error
field, so the operation succeeds with no error raised and the typed value
is the empty string (the descriptor declares reply type `str`). -/
theorem cadent_move_example :
    Cadent3.commandPfx ( "1".toList) = some ( "/1".toList) ∧
    Cadent3.defaultCommandTerminator = "R\r".toList ∧
    Cadent3.argsDelimiter = [] ∧
    encodeCommand ( "/1".toList) Cadent3.SYR_MOVE_ABS.name
        Cadent3.argsDelimiter (some (toString (3000 : Nat)).toList)
        Cadent3.defaultCommandTerminator = "/1A3000R\r".toList ∧
    Parsers.stripper ( "/0@\x03\r\n".toList) (some Cadent3.replyPfx)
        (some Cadent3.replyTerm) = "@".toList ∧
    '@'.toNat = 0x40 ∧ 0x40 &&& 0b11111 = 0 ∧
    Cadent3.check_errors '@'.toNat = none ∧
    Cadent3.parse_reply (decodeReply (fun _ => none) Cadent3.SYR_MOVE_ABS)
        ( "/0@\x03\r\n".toList) = .ok (some (.vstr [])) := by
  refine ⟨rfl, rfl, rfl, by decide, by decide, by decide, by decide, rfl,
    by decide⟩

/-- C7: `set_tare` with a specified weight outside [0, 3200] raises
`PLDeviceCommandError` with no command sent; a weight inside the range
sends exactly one `GET_TARE` command with argument f"... g"; a call
without a weight sends exactly one `SET_TARE` command. -/
theorem ms3002s_set_tare_spec (fmt : ℚ → PyStr) (w : ℚ) :
    (w < 0 ∨ w > MS3002S.MAX_WEIGHT →
      MS3002S.set_tare fmt (some w) =
        ([], some (.deviceCommandError (MS3002S.illegalTareMsg fmt w)))) ∧
    (0 ≤ w → w ≤ MS3002S.MAX_WEIGHT →
      MS3002S.set_tare fmt (some w) =
        ([.getTare (fmt w ++ " g".toList)], none)) ∧
    MS3002S.set_tare fmt none = ([.setTare], none) := by
  refine ⟨fun h => ?_, fun h1 h2 => ?_, rfl⟩
  · simp [MS3002S.set_tare, h]
  · have h : ¬(w < 0 ∨ w > MS3002S.MAX_WEIGHT) := by
      push_neg
      exact ⟨h1, h2⟩
    simp [MS3002S.set_tare, h]

theorem ms3002s_set_tare_spec_witness :
    MS3002S.set_tare (fun _ => []) (some 5000) =
      ([], some (.deviceCommandError
        (MS3002S.illegalTareMsg (fun _ => []) 5000))) ∧
    MS3002S.set_tare (fun _ => []) (some 100) =
      ([.getTare ( " g".toList)], none) := by
  constructor
  · exact (ms3002s_set_tare_spec (fun _ => []) 5000).1
      (by norm_num [MS3002S.MAX_WEIGHT])
  · have h := (ms3002s_set_tare_spec (fun _ => []) 100).2.1
      (by norm_num) (by norm_num [MS3002S.MAX_WEIGHT])
    simpa using h

/-- C8 counterexample: the claim says all three queries restore the
autorun property to its pre-call value even when the send raises; but
with the default terminator (autorun enabled) a `get_status` whose send
raises leaves autorun disabled, and starting with autorun disabled a
successful `get_status` enables it. -/
theorem cadent_autorun_not_restored :
    Cadent3.autorun Cadent3.defaultCommandTerminator = true ∧
    Cadent3.autorun (Cadent3.get_status
        (fun _ => (.error .keyError : Except PLError Nat))
        Cadent3.defaultCommandTerminator).1 = false ∧
    Cadent3.autorun ['\r'] = false ∧
    Cadent3.autorun (Cadent3.get_status
        (fun _ => (.ok 0 : Except PLError Nat)) ['\r']).1 = true := by
  refine ⟨by decide, by decide, by decide, by decide⟩

/-- C8 (amended): `get_plunger_position` restores the autorun property to
its pre-call value whether its send succeeds or raises (try/finally);
`get_status` and `get_velocities` instead leave autorun enabled exactly
when they return normally — a raising send leaves it disabled, and a
pre-call value of `False` is overwritten to `True` on success. -/
theorem cadent_autorun_after_queries (send : PyStr → Except PLError α)
    (sendCmd : CommandDescriptor → PyStr → Except PLError β) (term₀ : PyStr) :
    Cadent3.autorun (Cadent3.get_plunger_position send term₀).1 =
      Cadent3.autorun term₀ ∧
    Cadent3.autorun (Cadent3.get_status send term₀).1 =
      exceptIsOk (Cadent3.get_status send term₀).2 ∧
    Cadent3.autorun (Cadent3.get_velocities sendCmd term₀).1 =
      exceptIsOk (Cadent3.get_velocities sendCmd term₀).2 := by
  refine ⟨?_, ?_, ?_⟩
  · cases hs : send (Cadent3.setAutorun term₀ false) <;>
      simp [Cadent3.get_plunger_position, hs, autorun_setAutorun, exceptIsOk]
  · cases hs : send (Cadent3.setAutorun term₀ false) <;>
      simp [Cadent3.get_status, hs, autorun_setAutorun, exceptIsOk]
  · cases h1 : sendCmd Cadent3.GET_START_VEL (Cadent3.setAutorun term₀ false) <;>
      cases h2 : sendCmd Cadent3.GET_MAX_VEL (Cadent3.setAutorun term₀ false) <;>
      cases h3 : sendCmd Cadent3.GET_STOP_VEL (Cadent3.setAutorun term₀ false) <;>
      simp [Cadent3.get_velocities, h1, h2, h3, autorun_setAutorun, exceptIsOk]

/-- C9: `slicer` returns the requested slice of the reply, except that a
slice of length exactly 1 collapses to its single element (converted by
`str()`, the identity here) instead of a one-element list; `splitter`
delegates to `slicer` after `str.split` and so inherits the collapsing. -/
theorem slicer_singleton_collapse (reply : List PyStr)
    (args : Parsers.SliceArgs) (s : PyStr) (sep : Char) :
    (∀ x, Parsers.pySliceArgs reply args = [x] →
      Parsers.slicer reply args = .collapsed x) ∧
    ((Parsers.pySliceArgs reply args).length ≠ 1 →
      Parsers.slicer reply args = .sliced (Parsers.pySliceArgs reply args)) ∧
    Parsers.splitter s sep args = Parsers.slicer (Parsers.pySplit sep s) args := by
  refine ⟨fun x hx => ?_, fun h => ?_, rfl⟩
  · simp [Parsers.slicer, hx]
  · simp [Parsers.slicer, h]

theorem slicer_singleton_collapse_witness :
    Parsers.slicer [ "a".toList, "b".toList, "c".toList]
      (.startStop (-2) (-1)) = .collapsed ( "b".toList) ∧
    Parsers.slicer [ "a".toList, "b".toList] (.startStop 0 2) =
      .sliced [ "a".toList, "b".toList] :=
  ⟨(slicer_singleton_collapse [ "a".toList, "b".toList, "c".toList]
      (.startStop (-2) (-1)) [] ' ').1 ( "b".toList) (by decide),
   (slicer_singleton_collapse [ "a".toList, "b".toList]
      (.startStop 0 2) [] ' ').2.1 (by decide)⟩

/-- C10: whenever `get_weight` returns normally — on both the stable and
the immediate path — its result is the 2-tuple pairing `float(weight)`
with the unit string taken from the two-word parsed reply, never a bare
float. -/
theorem kdp_get_weight_returns_pair (pyFloat : PyStr → Option ℚ)
    (sendStable sendImmediate : Except PLError (List PyStr)) (stable : Bool)
    (v : KDP3000.WeightResult)
    (h : KDP3000.get_weight pyFloat sendStable sendImmediate stable = .ok v) :
    v.isPair = true ∧
    ∃ w u q, (if stable then sendStable else sendImmediate) = .ok [w, u] ∧
      pyFloat w = some q ∧ v = .pair q u := by
  unfold KDP3000.get_weight at h
  cases hs : (if stable then sendStable else sendImmediate) with
  | error e =>
    rw [hs] at h
    cases h
  | ok l =>
    rw [hs] at h
    match l with
    | [] => cases h
    | [_] => cases h
    | w :: u :: x :: xs => cases h
    | [w, u] =>
      have h' : (match pyFloat w with
          | some q => Except.ok (KDP3000.WeightResult.pair q u)
          | none =>
            (Except.error .valueError : Except PLError KDP3000.WeightResult)) =
          Except.ok v := h
      cases hf : pyFloat w with
      | none =>
        rw [hf] at h'
        cases h'
      | some q =>
        rw [hf] at h'
        cases h'
        exact ⟨rfl, w, u, q, rfl, hf, rfl⟩

theorem kdp_get_weight_returns_pair_witness :
    (KDP3000.WeightResult.pair 42 ( "g".toList)).isPair = true :=
  (kdp_get_weight_returns_pair (fun _ => some 42)
    (.ok [ "42.0".toList, "g".toList]) (.error .keyError) true
    (.pair 42 ( "g".toList)) (by decide)).1

end PyLabware
